import Mathlib

/-!
Verification development for the job-runner adapter of the archive-upload
service (src/archive_upload/lib/jobrunner.py).

The file embeds the Python module shallowly:

* the external localq scheduler status enumeration (`LocalQStatus`) and the
  arteria caller state vocabulary (strings in namespace `arteria_state`);
* the fixed status translation `localq2arteria_status`;
* the `LocalQAdapter` structure and its operations `start`, `stop`,
  `stop_all`, `status`, `status_all`;
* the body of the DSMC exit-code reinterpretation helper
  (`parse_dsmc_return_code`), including the warning scanner that mirrors
  the regular-expression search for tokens of shape ANS<digits>W.

Python-level behaviour is modelled explicitly: `int(job_id)` is the partial
conversion `pyInt`, Python exceptions are the `PyError` type, and fallible
operations return `Except PyError`.  In the source, the helper
`_parse_dsmc_return_code` is declared with the single parameter `job` (no
`self`) but is invoked as `self._parse_dsmc_return_code(job)`, so the call
itself raises `TypeError` before the helper body can run; the embedding of
`LocalQAdapter.status` reproduces that, and `parse_dsmc_return_code` embeds
the helper's body (what the code would do were the call well-formed) so the
two can be compared.
-/

/-- The raw status vocabulary of the external localq scheduler
(`localq.localQ_server.Status`).  The six named values are the ones the
translation tests for; `other` stands for any further value a scheduler
could hand back, which the translation's final `else` branch absorbs. -/
inductive LocalQStatus where
  | COMPLETED : LocalQStatus
  | FAILED : LocalQStatus
  | PENDING : LocalQStatus
  | RUNNING : LocalQStatus
  | CANCELLED : LocalQStatus
  | NOT_FOUND : LocalQStatus
  | other : String → LocalQStatus
deriving DecidableEq, Repr

namespace arteria_state

/-- `arteria.web.state.State.DONE`. -/
def DONE : String := "done"

/-- `arteria.web.state.State.ERROR`. -/
def ERROR : String := "error"

/-- `arteria.web.state.State.PENDING`. -/
def PENDING : String := "pending"

/-- `arteria.web.state.State.STARTED`. -/
def STARTED : String := "started"

/-- `arteria.web.state.State.CANCELLED`. -/
def CANCELLED : String := "cancelled"

/-- `arteria.web.state.State.NONE`. -/
def NONE : String := "none"

end arteria_state

/-- `LocalQAdapter.localq2arteria_status` (jobrunner.py lines 67-88): the
if/elif chain translating a localq status into an arteria state, with the
final `else` returning `NONE`. -/
def localq2arteria_status : LocalQStatus → String
  | .COMPLETED => arteria_state.DONE
  | .FAILED => arteria_state.ERROR
  | .PENDING => arteria_state.PENDING
  | .RUNNING => arteria_state.STARTED
  | .CANCELLED => arteria_state.CANCELLED
  | .NOT_FOUND => arteria_state.NONE
  | .other _ => arteria_state.NONE

/-- C1: the translation realises the documented fixed mapping
(COMPLETED to done, FAILED to error, PENDING to pending, RUNNING to
started, CANCELLED to cancelled, NOT_FOUND to none), and every raw value
outside the six named ones maps to "none". -/
theorem c1_localq2arteria_status_mapping :
    localq2arteria_status .COMPLETED = "done" ∧
    localq2arteria_status .FAILED = "error" ∧
    localq2arteria_status .PENDING = "pending" ∧
    localq2arteria_status .RUNNING = "started" ∧
    localq2arteria_status .CANCELLED = "cancelled" ∧
    localq2arteria_status .NOT_FOUND = "none" ∧
    ∀ raw : String, localq2arteria_status (.other raw) = "none" := by
  refine ⟨rfl, rfl, rfl, rfl, rfl, rfl, fun raw => rfl⟩

/-- The `proc` handle a localq job exposes; the adapter reads only its
`returncode`. -/
structure Proc where
  returncode : Int
deriving DecidableEq, Repr

/-- A localq job object, restricted to the fields the adapter consumes:
the command string `cmd`, the path `stdout` of the captured output log,
and the process handle `proc`. -/
structure Job where
  cmd : String
  stdout : String
  proc : Proc
deriving DecidableEq, Repr

/-- The downstream interface the adapter consumes from the external
`LocalQServer`: `add`, `stop_job_with_id`, `stop_all_jobs`,
`get_job_with_id`, `get_status` and `get_status_all`.  Per the interface
docstrings, `add` yields a job id or `none` on launch failure and
`stop_job_with_id` yields the stopped job's id or `none` when not found.
`get_job_with_id` takes the integer obtained by `int(job_id)` while
`get_status` takes the caller's raw job id value. -/
structure LocalQServer where
  add : String → Nat → String → Option String → Option String → Option Nat
  stop_job_with_id : String → Option Nat
  stop_all_jobs : Unit → Unit
  get_job_with_id : Int → Job
  get_status : String → LocalQStatus
  get_status_all : List (String × LocalQStatus)

/-- `LocalQAdapter.__init__` keeps the core budget, the whitelist of DSMC
warning codes and the scheduler handle.  (The interval and priority method
are only forwarded to the scheduler's constructor.) -/
structure LocalQAdapter where
  nbr_of_cores : Nat
  whitelisted_warnings : List String
  server : LocalQServer

/-- Python exceptions the embedded operations can raise. -/
inductive PyError where
  | typeError : String → PyError
  | valueError : String → PyError
deriving DecidableEq, Repr

/-- Characters `int(...)` strips from both ends of its string argument. -/
def isPyWhitespace (c : Char) : Bool :=
  c == ' ' || c == '\t' || c == '\n' || c == '\r' || c == '\x0b' || c == '\x0c'

/-- Value of a list of decimal digit characters, most significant first. -/
def digitsVal (l : List Char) : Nat :=
  l.foldl (fun acc c => acc * 10 + (c.toNat - 48)) 0

/-- Python's `int(s)` on a string: strip whitespace, allow one optional
sign, then require a nonempty run of decimal digits; anything else raises
`ValueError`, modelled as `none`. -/
def pyInt (s : String) : Option Int :=
  let t := ((s.data.dropWhile isPyWhitespace).reverse.dropWhile isPyWhitespace).reverse
  let signed : Bool × List Char :=
    match t with
    | '-' :: rest => (true, rest)
    | '+' :: rest => (false, rest)
    | _ => (false, t)
  if signed.2.isEmpty then none
  else if signed.2.all Char.isDigit then
    some (if signed.1 then -(digitsVal signed.2 : Int) else (digitsVal signed.2 : Int))
  else none

/-- Whether `pat` occurs at the head of `l` (character-wise). -/
def leadsWith : List Char → List Char → Bool
  | [], _ => true
  | _ :: _, [] => false
  | p :: ps, c :: cs => p == c && leadsWith ps cs

/-- Python's substring operator `needle in hay` on strings. -/
def pyInStr (needle hay : String) : Bool :=
  go needle.data hay.data
where
  go (n : List Char) : List Char → Bool
    | [] => n.isEmpty
    | c :: cs => leadsWith n (c :: cs) || go n cs

/-- One step of `re.findall(r'ANS[0-9]+W', line)`: at the current head of
the text, try to match `ANS`, a maximal nonempty run of decimal digits,
then `W`; on success return the matched token and the text after it.
Because digits and `W` are disjoint, the greedy digit run never needs
backtracking, so this is exactly the regular expression's behaviour. -/
def answMatchAt (l : List Char) : Option (String × List Char) :=
  match l with
  | 'A' :: 'N' :: 'S' :: rest =>
    let ds := rest.takeWhile Char.isDigit
    if ds.isEmpty then none
    else
      match rest.dropWhile Char.isDigit with
      | 'W' :: rest2 => some (String.mk ('A' :: 'N' :: 'S' :: (ds ++ ['W'])), rest2)
      | _ => none
  | _ => none

/-- The scan of `re.findall(r'ANS[0-9]+W', line)`: walk the text left to
right; at each position emit the match found there (if any) and continue
after it, otherwise advance one character.  The recursion is driven by a
fuel argument for structural termination; a step either drops one
character or, on a match, at least five, so fuel equal to the text length
is never exhausted and the result equals the unbounded scan. -/
def answScan : Nat → List Char → List String
  | 0, _ => []
  | _, [] => []
  | fuel + 1, c :: cs =>
    match answMatchAt (c :: cs) with
    | some (tok, rest2) => tok :: answScan fuel rest2
    | none => answScan fuel cs

/-- `re.findall(r'ANS[0-9]+W', line)` (jobrunner.py line 117): every
non-overlapping warning token of shape `ANS<digits>W` in the line, in
order. -/
def findall_answ (line : String) : List String :=
  answScan line.data.length line.data

/-- The loop over `warnings` at jobrunner.py lines 126-134: the first
warning absent from the whitelist keeps the error state; when every
warning is whitelisted the state becomes done. -/
def check_warnings (whitelisted_warnings : List String) : List String → String
  | [] => arteria_state.DONE
  | w :: ws =>
    if whitelisted_warnings.contains w then check_warnings whitelisted_warnings ws
    else arteria_state.ERROR

/-- The loop at jobrunner.py lines 116-121: append the `re.findall`
matches of every log line into one `warnings` list, in file order. -/
def collect_warnings : List String → List String
  | [] => []
  | line :: rest => findall_answ line ++ collect_warnings rest

/-- The body of `LocalQAdapter._parse_dsmc_return_code` (jobrunner.py
lines 105-137) as written: with return code 8, scan the captured log
(passed here as its list of lines, the content of the file at
`job.stdout`) for `ANS<digits>W` tokens and whitelist-check them;
with any other return code, keep the error state.  In the source this
body is unreachable: the helper is declared without a `self` parameter,
so the call site raises `TypeError` first (see `statusCore`). -/
def parse_dsmc_return_code (whitelisted_warnings : List String) (job : Job)
    (dsmc_log : List String) : String :=
  if job.proc.returncode == 8 then
    check_warnings whitelisted_warnings (collect_warnings dsmc_log)
  else
    arteria_state.ERROR

/-- The exception Python raises at the call
`self._parse_dsmc_return_code(job)` (jobrunner.py line 148): the helper is
declared as `def _parse_dsmc_return_code(job)` with one parameter, and the
bound-method call passes the instance and the job, two arguments. -/
def parseDsmcCallError : PyError :=
  .typeError "_parse_dsmc_return_code() takes exactly 1 argument (2 given)"

/-- The tail of `LocalQAdapter.status` (jobrunner.py lines 143-150) after
the two scheduler queries: translate the raw status; when the translation
is "error" and the job's command holds the token "dsmc" but not "md5sum",
the code calls `self._parse_dsmc_return_code(job)`, which raises
`TypeError` before the helper body can run; otherwise the translated
status is returned. -/
def statusCore (job : Job) (raw : LocalQStatus) : Except PyError String :=
  let arteria_status := localq2arteria_status raw
  if arteria_status == arteria_state.ERROR && pyInStr "dsmc" job.cmd
      && !(pyInStr "md5sum" job.cmd) then
    Except.error parseDsmcCallError
  else
    Except.ok arteria_status

/-- `LocalQAdapter.status` (jobrunner.py lines 140-150): `int(job_id)`
(raising `ValueError` on a non-numeric id) feeds `get_job_with_id`, while
`get_status` is queried with the original, unconverted `job_id`. -/
def LocalQAdapter.status (a : LocalQAdapter) (job_id : String) :
    Except PyError String :=
  match pyInt job_id with
  | none =>
    Except.error (.valueError ("invalid literal for int() with base 10: " ++ job_id))
  | some jid => statusCore (a.server.get_job_with_id jid) (a.server.get_status job_id)

/-- `LocalQAdapter.status_all` (jobrunner.py lines 154-158): translate
every entry of `get_status_all` through the fixed table; the dsmc
exit-code heuristic is never consulted (the source marks this with a
TODO). -/
def LocalQAdapter.status_all (a : LocalQAdapter) : List (String × String) :=
  a.server.get_status_all.map (fun kv => (kv.1, localq2arteria_status kv.2))

/-- `LocalQAdapter.start` (jobrunner.py lines 96-97): forward to
`server.add`.  The adapter value is returned alongside the result to make
explicit that the call leaves the adapter state untouched. -/
def LocalQAdapter.start (a : LocalQAdapter) (cmd : String) (nbr_of_cores : Nat)
    (run_dir : String) (stdout stderr : Option String) :
    Option Nat × LocalQAdapter :=
  (a.server.add cmd nbr_of_cores run_dir stdout stderr, a)

/-- `LocalQAdapter.stop` (jobrunner.py lines 99-100): forward to
`server.stop_job_with_id` with the job id exactly as received. -/
def LocalQAdapter.stop (a : LocalQAdapter) (job_id : String) :
    Option Nat × LocalQAdapter :=
  (a.server.stop_job_with_id job_id, a)

/-- `LocalQAdapter.stop_all` (jobrunner.py lines 102-103): forward to
`server.stop_all_jobs`. -/
def LocalQAdapter.stop_all (a : LocalQAdapter) : Unit × LocalQAdapter :=
  (a.server.stop_all_jobs (), a)

/-- A dsmc archiving job that ended with the warning sentinel return
code 8 and wrote its log to `job1.out`. -/
def dsmcJob : Job :=
  { cmd := "dsmc archive /data/runfolder1/ -subdir=yes"
  , stdout := "/tmp/localq/job1.out"
  , proc := { returncode := 8 } }

/-- A scheduler handle exposing one job, `job`, with raw status `raw`
under the id 1. -/
def oneJobServer (job : Job) (raw : LocalQStatus) : LocalQServer :=
  { add := fun _ _ _ _ _ => some 1
  , stop_job_with_id := fun _ => some 1
  , stop_all_jobs := fun _ => ()
  , get_job_with_id := fun _ => job
  , get_status := fun _ => raw
  , get_status_all := [("1", raw)] }

/-- An adapter over `oneJobServer job raw` with whitelist `wl`. -/
def oneJobAdapter (wl : List String) (job : Job) (raw : LocalQStatus) :
    LocalQAdapter :=
  { nbr_of_cores := 4
  , whitelisted_warnings := wl
  , server := oneJobServer job raw }

/-- A dsmc job combined with an md5sum step: the command holds both the
"dsmc" token and the "md5sum" token, and every other trigger condition of
the heuristic (warning sentinel return code 8) holds as well. -/
def md5sumJob : Job :=
  { cmd := "dsmc archive /data/runfolder1/ && md5sum -c /data/runfolder1/sums.md5"
  , stdout := "/tmp/localq/job2.out"
  , proc := { returncode := 8 } }

/-- A dsmc job whose process ended with return code 12, not the warning
sentinel 8. -/
def dsmcJobRc12 : Job :=
  { cmd := "dsmc archive /data/runfolder2/ -subdir=yes"
  , stdout := "/tmp/localq/job3.out"
  , proc := { returncode := 12 } }

/-- C2: refuted on the code as written.  On a job meeting the heuristic's
trigger (raw status FAILED mapping to "error", command holding "dsmc" and
not "md5sum"), `status` does not conservatively return "error": the call
`self._parse_dsmc_return_code(job)` raises `TypeError`, because the helper
is declared with the single parameter `job` and the bound-method call
passes two arguments.  The conjuncts record that each trigger condition
holds at the evaluated input. -/
theorem c2_heuristic_trigger_raises_typeerror :
    localq2arteria_status .FAILED = "error" ∧
      pyInStr "dsmc" dsmcJob.cmd = true ∧
      pyInStr "md5sum" dsmcJob.cmd = false ∧
      (oneJobAdapter ["ANS1809W", "ANS2250W"] dsmcJob .FAILED).status "1"
        = Except.error parseDsmcCallError :=
  ⟨rfl, rfl, rfl, rfl⟩

/-- C3: refuted on the code as written.  With return code 8 and a log
whose only `ANS<digits>W` tokens are all whitelisted, the helper's body
would return "done" (second conjunct), but `status` never reaches it: the
call raises `TypeError` (first conjunct), so `status` does not return
"done". -/
theorem c3_whitelisted_warnings_code_bug :
    (oneJobAdapter ["ANS1809W", "ANS2000W"] dsmcJob .FAILED).status "1"
        = Except.error parseDsmcCallError ∧
      parse_dsmc_return_code ["ANS1809W", "ANS2000W"] dsmcJob
        ["ANS1809W session timed out", "a plain log line", "ANS2000W low space"]
        = "done" :=
  ⟨rfl, rfl⟩

/-- C4: refuted on the code as written.  With return code 8 and a log
holding the non-whitelisted token ANS9999W, the helper's body would keep
"error" (second conjunct), but `status` raises `TypeError` instead of
returning "error" (first conjunct). -/
theorem c4_nonwhitelisted_warning_code_bug :
    (oneJobAdapter ["ANS1809W"] dsmcJob .FAILED).status "1"
        = Except.error parseDsmcCallError ∧
      parse_dsmc_return_code ["ANS1809W"] dsmcJob
        ["ANS1809W session timed out", "ANS9999W not whitelisted"]
        = "error" :=
  ⟨rfl, rfl⟩

/-- C5: refuted on the code as written.  With return code 12 (not the
warning sentinel 8) the helper's body would keep "error" whatever the log
holds (second conjunct), but `status` raises `TypeError` instead of
returning "error" (first conjunct). -/
theorem c5_returncode_not_8_code_bug :
    (oneJobAdapter ["ANS1809W"] dsmcJobRc12 .FAILED).status "1"
        = Except.error parseDsmcCallError ∧
      parse_dsmc_return_code ["ANS1809W"] dsmcJobRc12
        ["ANS1809W session timed out"] = "error" :=
  ⟨rfl, rfl⟩

/-- C6: for every adapter and every job id that converts to an integer,
when the fetched job's command holds the "md5sum" token, `status` skips
the exit-code reinterpretation heuristic and returns the directly mapped
status unchanged, whatever the raw status, the return code or the log. -/
theorem c6_md5sum_skips_heuristic (a : LocalQAdapter) (job_id : String)
    (jid : Int) (h : pyInt job_id = some jid)
    (hmd5 : pyInStr "md5sum" (a.server.get_job_with_id jid).cmd = true) :
    a.status job_id
      = Except.ok (localq2arteria_status (a.server.get_status job_id)) := by
  simp [LocalQAdapter.status, statusCore, h, hmd5]

/-- C6 at a concrete input: an md5sum-containing command meeting every
other trigger condition (raw status FAILED, "dsmc" token, return code 8,
whitelisted warnings); `status` returns the mapped status "error"
unchanged. -/
theorem c6_md5sum_skips_heuristic_witness :
    (oneJobAdapter ["ANS1809W"] md5sumJob .FAILED).status "1"
      = Except.ok "error" :=
  c6_md5sum_skips_heuristic (oneJobAdapter ["ANS1809W"] md5sumJob .FAILED)
    "1" 1 rfl rfl

/-- C7: `status_all` translates every entry of `get_status_all` directly
and never consults the heuristic (first conjunct, for every adapter), so
the whitelisted-warnings dsmc job reports "error" through it (second and
third conjuncts).  The claim's contrast with `status` fails on the code as
written: `status` on the same job raises `TypeError` rather than
returning "done" (fourth conjunct). -/
theorem c7_status_all_skips_heuristic :
    (∀ a : LocalQAdapter,
        a.status_all = a.server.get_status_all.map
          (fun kv => (kv.1, localq2arteria_status kv.2))) ∧
      (oneJobAdapter ["ANS1809W"] dsmcJob .FAILED).status_all
        = [("1", "error")] ∧
      parse_dsmc_return_code ["ANS1809W"] dsmcJob ["ANS1809W session timed out"]
        = "done" ∧
      (oneJobAdapter ["ANS1809W"] dsmcJob .FAILED).status "1"
        = Except.error parseDsmcCallError :=
  ⟨fun _ => rfl, rfl, rfl, rfl⟩

/-- C8: `start`, `stop` and `stop_all` are pure forwards: each returns
exactly the corresponding scheduler call's result on the unchanged
arguments, and leaves the adapter state untouched. -/
theorem c8_start_stop_pure_forwarding (a : LocalQAdapter) (cmd : String)
    (nbr_of_cores : Nat) (run_dir : String) (stdout stderr : Option String)
    (job_id : String) :
    a.start cmd nbr_of_cores run_dir stdout stderr
        = (a.server.add cmd nbr_of_cores run_dir stdout stderr, a) ∧
      a.stop job_id = (a.server.stop_job_with_id job_id, a) ∧
      a.stop_all = (a.server.stop_all_jobs (), a) :=
  ⟨rfl, rfl, rfl⟩

/-- C9: whenever the scheduler's `add` reports launch failure with the
absent job id, `start` returns that same absent sentinel (it forwards the
result, raising nothing), and the sentinel differs from every valid job
id. -/
theorem c9_start_none_on_launch_failure (a : LocalQAdapter) (cmd : String)
    (nbr_of_cores : Nat) (run_dir : String) (stdout stderr : Option String)
    (h : a.server.add cmd nbr_of_cores run_dir stdout stderr = none) :
    (a.start cmd nbr_of_cores run_dir stdout stderr).1 = none ∧
      ∀ job_id : Nat,
        (a.start cmd nbr_of_cores run_dir stdout stderr).1 ≠ some job_id := by
  refine ⟨h, fun job_id hc => ?_⟩
  rw [show (a.start cmd nbr_of_cores run_dir stdout stderr).1
        = a.server.add cmd nbr_of_cores run_dir stdout stderr from rfl, h] at hc
  exact Option.noConfusion hc

/-- A scheduler handle whose `add` always reports launch failure. -/
def failingServer : LocalQServer :=
  { add := fun _ _ _ _ _ => none
  , stop_job_with_id := fun _ => none
  , stop_all_jobs := fun _ => ()
  , get_job_with_id := fun _ => dsmcJob
  , get_status := fun _ => .NOT_FOUND
  , get_status_all := [] }

/-- An adapter over `failingServer`. -/
def failingAdapter : LocalQAdapter :=
  { nbr_of_cores := 4
  , whitelisted_warnings := []
  , server := failingServer }

/-- C9 at a concrete input: on a failing launch, `start` yields the absent
sentinel, distinct from every job id. -/
theorem c9_start_none_on_launch_failure_witness :
    (failingAdapter.start "dsmc archive /data/runfolder1/" 1 "/data" none
        none).1 = none ∧
      ∀ job_id : Nat,
        (failingAdapter.start "dsmc archive /data/runfolder1/" 1 "/data" none
          none).1 ≠ some job_id :=
  c9_start_none_on_launch_failure failingAdapter "dsmc archive /data/runfolder1/"
    1 "/data" none none rfl

/-- C10: `status` needs a job id convertible to an integer: a
non-convertible id makes `int(job_id)` raise `ValueError` instead of
yielding a status; a convertible one feeds `get_job_with_id` with the
converted integer while `get_status` receives the original, unconverted
string; and `stop` and `status_all` never convert ids (`stop` forwards
the string as received, `status_all` maps the scheduler's keys
unchanged). -/
theorem c10_status_requires_int_job_id (a : LocalQAdapter) (job_id : String) :
    (pyInt job_id = none →
        a.status job_id = Except.error
          (.valueError ("invalid literal for int() with base 10: " ++ job_id))) ∧
      (∀ jid : Int, pyInt job_id = some jid →
        a.status job_id
          = statusCore (a.server.get_job_with_id jid)
              (a.server.get_status job_id)) ∧
      a.stop job_id = (a.server.stop_job_with_id job_id, a) ∧
      a.status_all = a.server.get_status_all.map
        (fun kv => (kv.1, localq2arteria_status kv.2)) := by
  refine ⟨fun h => ?_, fun jid h => ?_, rfl, rfl⟩
  · simp [LocalQAdapter.status, h]
  · simp [LocalQAdapter.status, h]

/-- C10 at concrete inputs: `status "abc"` raises `ValueError`, while
`status "1"` queries the job table at the integer 1 and the raw status at
the string "1"; `stop` forwards the id "abc" untouched. -/
theorem c10_status_requires_int_job_id_witness :
    (oneJobAdapter [] dsmcJob .COMPLETED).status "abc"
        = Except.error (.valueError "invalid literal for int() with base 10: abc") ∧
      (oneJobAdapter [] dsmcJob .COMPLETED).status "1"
        = statusCore ((oneJobAdapter [] dsmcJob .COMPLETED).server.get_job_with_id 1)
            ((oneJobAdapter [] dsmcJob .COMPLETED).server.get_status "1") ∧
      (oneJobAdapter [] dsmcJob .COMPLETED).stop "abc"
        = ((oneJobAdapter [] dsmcJob .COMPLETED).server.stop_job_with_id "abc",
           oneJobAdapter [] dsmcJob .COMPLETED) :=
  ⟨(c10_status_requires_int_job_id (oneJobAdapter [] dsmcJob .COMPLETED) "abc").1 rfl,
   ((c10_status_requires_int_job_id (oneJobAdapter [] dsmcJob .COMPLETED) "1").2.1 1 rfl),
   (c10_status_requires_int_job_id (oneJobAdapter [] dsmcJob .COMPLETED) "abc").2.2.1⟩
